import Mathlib

/-!
Verification of the GeoFamily geofencing core: a shallow embedding of the
server Cloud Functions (functions/src/index.ts), the client foreground loop
(app/(tabs)/index.tsx), the client notification helper (utils/notifications.ts),
the shared distance helper (utils/helpers.ts) and the geofence edit screen.

Machine numbers are modelled as rationals (exact, matching the algebra of the
source), timestamps as integers (milliseconds), and loosely-typed JavaScript
field values as an explicit `JSVal` type so that the source's truthiness and
typeof checks can be embedded faithfully.
-/

/-- A JavaScript runtime value as far as the validation code inspects it:
a number, a boolean, or anything else (string, object, NaN is excluded since
we model numbers as exact rationals). A missing field is `Option.none` one
level up. -/
inductive JSVal where
  | vnum (q : ℚ)
  | vbool (b : Bool)
  | vother
deriving DecidableEq, Repr

/-- Embeds the repeated validation pattern of checkGeofences
(functions/src/index.ts lines 268-276 and 311-318):
`!x || typeof x !== "number"` rejects a missing field, a non-number field
and the number 0 (which is falsy in JavaScript).  Returns the validated
numeric value when the field passes. -/
def validCoord : Option JSVal → Option ℚ
  | some (JSVal.vnum q) => if q = 0 then none else some q
  | _ => none

/-- A location object as stored at /liveData/uid/currentLocation; fields may
be missing or of the wrong type. -/
structure JSLoc where
  latitude : Option JSVal
  longitude : Option JSVal
deriving DecidableEq, Repr

/-- Location validation of checkGeofences: both coordinates of the (possibly
absent) location object must be non-zero numbers. -/
def locCoords : Option JSLoc → Option (ℚ × ℚ)
  | none => none
  | some l =>
    match validCoord l.latitude, validCoord l.longitude with
    | some la, some lo => some (la, lo)
    | _, _ => none

/-- A geofence document as read by checkGeofences: `center` may be absent and
each numeric field may be missing or malformed. -/
structure JSFence where
  id : String
  center : Option (Option JSVal × Option JSVal)
  radius : Option JSVal
deriving DecidableEq, Repr

/-- Geofence validation of checkGeofences (functions/src/index.ts lines
311-318): center latitude, center longitude and radius must all be non-zero
numbers, otherwise the fence is skipped. -/
def fenceParams (f : JSFence) : Option (ℚ × ℚ × ℚ) :=
  match f.center with
  | none => none
  | some (la, lo) =>
    match validCoord la, validCoord lo, validCoord f.radius with
    | some a, some o, some r => some (a, o, r)
    | _, _, _ => none

/-- The two geofence transition kinds. -/
inductive GeoEvent where
  | entry
  | exit
deriving DecidableEq, Repr

/-- Transition decision of checkGeofences (functions/src/index.ts lines
327-340): `wasInside = distanceOld <= radius`, `isInside = distanceNew <=
radius`; entry iff `!wasInside && isInside`, exit iff `wasInside &&
!isInside`, no event otherwise. -/
def fenceTransition (distanceOld distanceNew radius : ℚ) : Option GeoEvent :=
  if ¬ distanceOld ≤ radius ∧ distanceNew ≤ radius then some GeoEvent.entry
  else if distanceOld ≤ radius ∧ ¬ distanceNew ≤ radius then some GeoEvent.exit
  else none

/-- Transition decision of the client checkCurrentUserGeofences
(app/(tabs)/index.tsx lines 527-535), same shape as the server copy. -/
def clientFenceTransition (distanceOld distanceNew radius : ℚ) : Option GeoEvent :=
  if ¬ distanceOld ≤ radius ∧ distanceNew ≤ radius then some GeoEvent.entry
  else if distanceOld ≤ radius ∧ ¬ distanceNew ≤ radius then some GeoEvent.exit
  else none

/-- The event-producing part of the server checkGeofences trigger
(functions/src/index.ts lines 260-341), parametrised by the distance
function: validate the old and the new location (exiting with no events when
either is invalid), then for each fence that passes validation compute the
old and new distances to its center and apply the transition decision.
The result is the list of (fenceId, event) candidates the trigger would then
feed to the cooldown check and dispatch. -/
def checkGeofencesEvents (dist : ℚ → ℚ → ℚ → ℚ → ℚ)
    (oldLocation newLocation : Option JSLoc) (fences : List JSFence) :
    List (String × GeoEvent) :=
  match locCoords newLocation, locCoords oldLocation with
  | some (nlat, nlon), some (olat, olon) =>
    fences.filterMap (fun f =>
      match fenceParams f with
      | none => none
      | some (clat, clon, r) =>
        (fenceTransition (dist olat olon clat clon) (dist nlat nlon clat clon) r).map
          (fun e => (f.id, e)))
  | _, _ => []

/-- A client-side location sample (typed numbers, per the LiveData interface). -/
structure ClientLoc where
  latitude : ℚ
  longitude : ℚ
deriving DecidableEq, Repr

/-- A client-side geofence as held in component state. -/
structure ClientFence where
  id : String
  name : String
  centerLatitude : ℚ
  centerLongitude : ℚ
  radius : ℚ
deriving DecidableEq, Repr

/-- The event-producing part of the client checkCurrentUserGeofences
(app/(tabs)/index.tsx lines 516-546): the guard returns with no events when
the user is missing, the current or previous location is absent or has a
falsy latitude, the fence list is empty, or the family id is missing; each
fence with a falsy center coordinate or radius is skipped; otherwise the
transition decision runs on the two distances. -/
def checkCurrentUserGeofencesEvents (dist : ℚ → ℚ → ℚ → ℚ → ℚ)
    (hasUser : Bool) (currentLoc previousLoc : Option ClientLoc)
    (fences : List ClientFence) (hasFamilyId : Bool) :
    List (String × GeoEvent) :=
  match hasUser, currentLoc, previousLoc with
  | true, some c, some p =>
    if c.latitude = 0 ∨ p.latitude = 0 ∨ fences = [] ∨ hasFamilyId = false then []
    else
      fences.filterMap (fun f =>
        if f.centerLatitude = 0 ∨ f.centerLongitude = 0 ∨ f.radius = 0 then none
        else
          (clientFenceTransition
            (dist p.latitude p.longitude f.centerLatitude f.centerLongitude)
            (dist c.latitude c.longitude f.centerLatitude f.centerLongitude)
            f.radius).map (fun e => (f.id, e)))
  | _, _, _ => []

/-- Notification kinds (the `type` union of NotificationCoreData in
functions/src/index.ts and NotificationPayload in utils/notifications.ts). -/
inductive NotifType where
  | low_battery
  | sos
  | geofence_entry
  | geofence_exit
  | info
deriving DecidableEq, Repr

/-- A stored notification document ("notifications" collection): the durable
log record written by both dispatch paths and queried by the server cooldown
checks. `timestamp` is in milliseconds. -/
structure NotifRecord where
  recipientUid : String
  triggeringUid : Option String
  type : NotifType
  relatedGeofenceId : Option String
  timestamp : ℤ
deriving DecidableEq, Repr

/-- The timestamp of the most recent log record matching a predicate: the
result of a Firestore query filtered by the predicate, ordered by timestamp
descending, limit 1. -/
def latestMatching (log : List NotifRecord) (p : NotifRecord → Bool) : Option ℤ :=
  log.foldl
    (fun acc n =>
      if p n then
        match acc with
        | none => some n.timestamp
        | some t => some (max t n.timestamp)
      else acc)
    none

/-- NOTIFICATION_COOLDOWN_MS.lowBattery (functions/src/index.ts line 29). -/
def NOTIFICATION_COOLDOWN_MS_lowBattery : ℤ := 15 * 60 * 1000

/-- NOTIFICATION_COOLDOWN_MS.geofence (functions/src/index.ts line 30). -/
def NOTIFICATION_COOLDOWN_MS_geofence : ℤ := 5 * 60 * 1000

/-- The cooldown decision of checkLowBattery (functions/src/index.ts lines
124-139): query the latest notification with this triggeringUid and type
low_battery; if one exists and now is before its timestamp plus the
low-battery window, suppress, otherwise allow. -/
def lowBatteryCooldownAllows (log : List NotifRecord) (userId : String)
    (now : ℤ) : Bool :=
  match latestMatching log
      (fun n => decide (n.triggeringUid = some userId ∧
        n.type = NotifType.low_battery)) with
  | none => true
  | some t => if now < t + NOTIFICATION_COOLDOWN_MS_lowBattery then false else true

/-- The cooldown decision of checkGeofences (functions/src/index.ts lines
345-360): query the latest notification with this triggeringUid, this
relatedGeofenceId and this event type; if one exists and now is before its
timestamp plus the geofence window, suppress, otherwise allow. -/
def geofenceCooldownAllows (log : List NotifRecord) (userId fenceId : String)
    (eventType : NotifType) (now : ℤ) : Bool :=
  match latestMatching log
      (fun n => decide (n.triggeringUid = some userId ∧
        n.relatedGeofenceId = some fenceId ∧ n.type = eventType)) with
  | none => true
  | some t => if now < t + NOTIFICATION_COOLDOWN_MS_geofence then false else true

/-- The trigger test of onSosActivated (functions/src/index.ts lines
181-183): the handler proceeds iff the written value exists and is exactly
the boolean true. -/
def sosTriggerFires (after : Option JSVal) : Bool :=
  decide (after = some (JSVal.vbool true))

/-- Models the sos dispatch gate of onSosActivated (functions/src/index.ts
lines 178-242): between the trigger test and the fan-out the handler performs
no query of the notifications log at all, so the gate stage for sos is the
constant true, whatever the log holds. -/
def sosCooldownAllows (log : List NotifRecord) : Bool :=
  match log with
  | _ => true

/-- GEOFENCE_COOLDOWN_PERIOD (app/(tabs)/index.tsx line 58). -/
def GEOFENCE_COOLDOWN_PERIOD : ℤ := 5 * 60 * 1000

/-- BATTERY_COOLDOWN_PERIOD (app/(tabs)/index.tsx line 57). -/
def BATTERY_COOLDOWN_PERIOD : ℤ := 15 * 60 * 1000

/-- The client geofence cooldown decision (app/(tabs)/index.tsx lines
538-541): `!lastAlertTime || (now - lastAlertTime > GEOFENCE_COOLDOWN_PERIOD)`
over the runtime-local ref map geofenceCooldowns, keyed by fence id only.
A stored timestamp of 0 is falsy in JavaScript, hence also allows. -/
def clientGeofenceGate (geofenceCooldowns : List (String × ℤ))
    (fenceId : String) (now : ℤ) : Bool :=
  match geofenceCooldowns.lookup fenceId with
  | none => true
  | some t => if t = 0 then true else decide (now - t > GEOFENCE_COOLDOWN_PERIOD)

/-- The client low-battery cooldown decision (app/(tabs)/index.tsx line 495):
`!lastLowBatteryAlertSent.current || (now - lastLowBatteryAlertSent.current >
BATTERY_COOLDOWN_PERIOD)` over a runtime-local ref. -/
def clientBatteryGate (lastLowBatteryAlertSent : Option ℤ) (now : ℤ) : Bool :=
  match lastLowBatteryAlertSent with
  | none => true
  | some t => if t = 0 then true else decide (now - t > BATTERY_COOLDOWN_PERIOD)

/-- One step of the client battery listener (app/(tabs)/index.tsx lines
487-503), restricted to its alert decision: given the runtime-local ref
state, the new (rounded) battery level, the current time and the profile and
settings flags, return whether a low-battery notification is stored and the
new ref state.  At a level of 20 or less (with a loaded profile and family)
the alert fires iff battery alerts are enabled and the local cooldown gate
allows, setting the ref to now; at a level above 20 the ref is reset. -/
def clientBatteryStep (lastSent : Option ℤ) (newLevel : ℤ) (now : ℤ)
    (hasProfileAndFamily : Bool) (batteryAlertsEnabled : Bool) :
    Bool × Option ℤ :=
  if newLevel ≤ 20 ∧ hasProfileAndFamily = true then
    if batteryAlertsEnabled = false then (false, lastSent)
    else if clientBatteryGate lastSent now then (true, some now)
    else (false, lastSent)
  else if 20 < newLevel then (false, none)
  else (false, lastSent)

/-- Runs the client battery listener over a sequence of (level, time)
samples, threading the runtime-local ref; returns, per sample, whether an
alert fired. -/
def clientBatteryRun (hasProfileAndFamily batteryAlertsEnabled : Bool) :
    Option ℤ → List (ℤ × ℤ) → List Bool
  | _, [] => []
  | st, (lvl, t) :: rest =>
    let r := clientBatteryStep st lvl t hasProfileAndFamily batteryAlertsEnabled
    r.1 :: clientBatteryRun hasProfileAndFamily batteryAlertsEnabled r.2 rest

/-- LOW_BATTERY_THRESHOLD (functions/src/index.ts line 27). -/
def LOW_BATTERY_THRESHOLD : ℚ := 20

/-- The emission condition of the server checkLowBattery trigger
(functions/src/index.ts lines 117-121): the new value is a number at most
the threshold, and the previous value is null or above the threshold. -/
def serverLowBatteryFires (previousBatteryLevel batteryLevel : Option ℚ) :
    Bool :=
  match batteryLevel with
  | none => false
  | some b =>
    decide (b ≤ LOW_BATTERY_THRESHOLD) &&
      (match previousBatteryLevel with
       | none => true
       | some p => decide (LOW_BATTERY_THRESHOLD < p))

/-- Feeds a battery sequence through the server edge detector, pairing each
sample with its predecessor (the first sample has no predecessor). -/
def serverEdgeFires : Option ℚ → List ℚ → List Bool
  | _, [] => []
  | prev, b :: rest =>
    serverLowBatteryFires prev (some b) :: serverEdgeFires (some b) rest

/-- Outcome of the push-attempt reported by the messaging provider, as
distinguished by sendAndStoreNotification's catch clause. -/
inductive PushResult where
  | delivered
  | invalidToken
  | otherFailure
deriving DecidableEq, Repr

/-- Outcome of one sendAndStoreNotification call: whether a notification
document was added to the durable log, and whether the recipient's stored
fcmToken was deleted. -/
structure SendOutcome where
  stored : Bool
  tokenCleared : Bool
deriving DecidableEq, Repr

/-- The control flow of sendAndStoreNotification (functions/src/index.ts
lines 69-102) as a function of the recipient's stored token and the push
outcome: with no token the function returns before both the push and the
Firestore write; with a token it pushes first and only reaches the
notifications write when the push did not throw; a thrown invalid-token
error deletes the stored token in the catch clause. -/
def sendAndStoreNotification (fcmToken : Option String) (push : PushResult) :
    SendOutcome :=
  match fcmToken with
  | none => ⟨false, false⟩
  | some _ =>
    match push with
    | PushResult.delivered => ⟨true, false⟩
    | PushResult.invalidToken => ⟨false, true⟩
    | PushResult.otherFailure => ⟨false, false⟩

/-- The recipient fan-out of all three server triggers
(functions/src/index.ts lines 166-168, 234-236 and 385-392): every family
member except the triggering user, each yielding one notification record
with recipientUid the member and triggeringUid the user. -/
def serverFanOutRecords (memberIds : List String) (userId : String)
    (type : NotifType) (relatedGeofenceId : Option String) (now : ℤ) :
    List NotifRecord :=
  (memberIds.filter (fun i => !(i == userId))).map
    (fun uid => ⟨uid, some userId, type, relatedGeofenceId, now⟩)

/-- getOtherFamilyMemberUids (utils/notifications.ts lines 16-32): the
family's member ids with the sender excluded. -/
def getOtherFamilyMemberUids (memberIds : List String) (selfUid : String) :
    List String :=
  memberIds.filter (fun i => !(i == selfUid))

/-- NotificationPayload (utils/notifications.ts lines 5-13). -/
structure NotificationPayload where
  type : NotifType
  title : String
  message : String
  familyId : String
  triggeringUid : Option String
  relatedGeofenceId : Option String
  relatedLocation : Option (ℚ × ℚ)
deriving DecidableEq, Repr

/-- createNotificationsForFamily (utils/notifications.ts lines 36-85): with
a falsy familyId the call fails with no writes (none); otherwise one
notification document is written per non-self family member, with no push
attempt anywhere in the function. -/
def createNotificationsForFamily (senderUid : String)
    (memberIds : List String) (payload : NotificationPayload) (now : ℤ) :
    Option (List NotifRecord) :=
  if payload.familyId = "" then none
  else
    some ((getOtherFamilyMemberUids memberIds senderUid).map
      (fun uid =>
        ⟨uid, payload.triggeringUid, payload.type, payload.relatedGeofenceId,
          now⟩))

/-- MIN_RADIUS (geofence edit screen). -/
def MIN_RADIUS : ℚ := 50

/-- MAX_RADIUS (geofence edit screen). -/
def MAX_RADIUS : ℚ := 5000

/-- JavaScript Math.round for a finite value: the nearest integer, halves
toward positive infinity. -/
def jsRound (q : ℚ) : ℤ := ⌊q + 1 / 2⌋

/-- JavaScript String.prototype.trim: strip leading and trailing whitespace
(structurally recursive model over the character list). -/
def jsTrim (s : String) : String :=
  ⟨((s.data.dropWhile Char.isWhitespace).reverse.dropWhile
      Char.isWhitespace).reverse⟩

/-- The inputs handleSave (geofence edit screen) reads. -/
structure GeofenceSaveForm where
  hasUser : Bool
  familyId : Option String
  isAdmin : Bool
  center : Option (ℚ × ℚ)
  name : String
  radius : ℚ
deriving DecidableEq, Repr

/-- The geofence document handleSave writes. -/
structure GeofenceDocument where
  name : String
  radius : ℤ
  center : ℚ × ℚ
  familyId : String
deriving DecidableEq, Repr

/-- handleSave of the geofence edit screen: reject when the user or a truthy
familyId is missing, the user is not an admin, no center is set, the trimmed
name is empty, or the radius lies outside [MIN_RADIUS, MAX_RADIUS];
otherwise write the trimmed name, the rounded radius, the center and the
family id. -/
def handleSave (s : GeofenceSaveForm) : Option GeofenceDocument :=
  if s.hasUser = false then none
  else
    match s.familyId with
    | none => none
    | some fid =>
      if fid = "" then none
      else if s.isAdmin = false then none
      else
        match s.center with
        | none => none
        | some c =>
          if jsTrim s.name = "" then none
          else if s.radius < MIN_RADIUS ∨ MAX_RADIUS < s.radius then none
          else some ⟨jsTrim s.name, jsRound s.radius, c, fid⟩

/-- JavaScript Math.atan2 on exact reals (no signed zeros): the angle of the
point (x, y). -/
noncomputable def jsAtan2 (y x : ℝ) : ℝ :=
  if 0 < x then Real.arctan (y / x)
  else if x < 0 then
    (if 0 ≤ y then Real.arctan (y / x) + Real.pi
     else Real.arctan (y / x) - Real.pi)
  else
    (if 0 < y then Real.pi / 2
     else if y < 0 then -(Real.pi / 2)
     else 0)

namespace Functions

/-- The intermediate value `a` of the server getDistance
(functions/src/index.ts lines 247-258): squared half-angle sine of the
latitude difference plus the product of the cosines with the squared
half-angle sine of the longitude difference, all angles in radians. -/
noncomputable def haversineA (lat1 lon1 lat2 lon2 : ℝ) : ℝ :=
  Real.sin ((lat2 - lat1) * Real.pi / 180 / 2) *
      Real.sin ((lat2 - lat1) * Real.pi / 180 / 2) +
    Real.cos (lat1 * Real.pi / 180) * Real.cos (lat2 * Real.pi / 180) *
      Real.sin ((lon2 - lon1) * Real.pi / 180 / 2) *
      Real.sin ((lon2 - lon1) * Real.pi / 180 / 2)

/-- The server getDistance (functions/src/index.ts lines 247-258): haversine
distance on a sphere of radius 6371e3 meters. -/
noncomputable def getDistance (lat1 lon1 lat2 lon2 : ℝ) : ℝ :=
  6371000 *
    (2 * jsAtan2 (Real.sqrt (haversineA lat1 lon1 lat2 lon2))
      (Real.sqrt (1 - haversineA lat1 lon1 lat2 lon2)))

end Functions

namespace Helpers

/-- The intermediate value `a` of the client getDistance (utils/helpers.ts
line 33), identical in form to the server copy. -/
noncomputable def haversineA (lat1 lon1 lat2 lon2 : ℝ) : ℝ :=
  Real.sin ((lat2 - lat1) * Real.pi / 180 / 2) *
      Real.sin ((lat2 - lat1) * Real.pi / 180 / 2) +
    Real.cos (lat1 * Real.pi / 180) * Real.cos (lat2 * Real.pi / 180) *
      Real.sin ((lon2 - lon1) * Real.pi / 180 / 2) *
      Real.sin ((lon2 - lon1) * Real.pi / 180 / 2)

/-- The client getDistance (utils/helpers.ts lines 32-34): haversine
distance on a sphere of radius 6371e3 meters. -/
noncomputable def getDistance (lat1 lon1 lat2 lon2 : ℝ) : ℝ :=
  6371000 *
    (2 * jsAtan2 (Real.sqrt (haversineA lat1 lon1 lat2 lon2))
      (Real.sqrt (1 - haversineA lat1 lon1 lat2 lon2)))

end Helpers

/-- CLAIM C1. For one (previous, current) pair evaluated against one fence,
both the server and the client transition decisions emit an entry event iff
the previous sample was strictly outside (distance > radius) and the current
one inside (distance <= radius, boundary inclusive), emit an exit event iff
the previous sample was inside and the current one outside, and emit nothing
otherwise; entry and exit are mutually exclusive, so an outside-to-inside
move yields exactly one entry and no exit. -/
theorem c1_transition_detector :
    ∀ distanceOld distanceNew radius : ℚ,
      (fenceTransition distanceOld distanceNew radius = some GeoEvent.entry ↔
        (radius < distanceOld ∧ distanceNew ≤ radius)) ∧
      (fenceTransition distanceOld distanceNew radius = some GeoEvent.exit ↔
        (distanceOld ≤ radius ∧ radius < distanceNew)) ∧
      (fenceTransition distanceOld distanceNew radius = none ↔
        ((distanceOld ≤ radius) ↔ (distanceNew ≤ radius))) ∧
      clientFenceTransition distanceOld distanceNew radius =
        fenceTransition distanceOld distanceNew radius := by
  intro dOld dNew r
  refine ⟨?_, ?_, ?_, rfl⟩ <;>
    · unfold fenceTransition
      by_cases h1 : dOld ≤ r <;> by_cases h2 : dNew ≤ r <;>
        simp [h1, h2, not_le.mp, lt_iff_not_le]

/-- CLAIM C6. When the previous location sample is absent, both the server
trigger (whose validation at functions/src/index.ts lines 268-276 rejects a
null old location) and the client loop (whose guard at app/(tabs)/index.tsx
line 519 rejects an absent previous location, and whose caller at line 436
only invokes the check when a previous sample exists) produce zero entry or
exit events, for every distance function, every current sample and every
fence set. -/
theorem c6_first_sample_rule :
    ∀ (dist : ℚ → ℚ → ℚ → ℚ → ℚ) (newLocation : Option JSLoc)
      (fences : List JSFence) (hasUser : Bool) (currentLoc : Option ClientLoc)
      (cfences : List ClientFence) (hasFamilyId : Bool),
      checkGeofencesEvents dist none newLocation fences = [] ∧
      checkCurrentUserGeofencesEvents dist hasUser currentLoc none cfences
        hasFamilyId = [] := by
  intro dist newLocation fences hasUser currentLoc cfences hasFamilyId
  constructor
  · unfold checkGeofencesEvents
    cases h : locCoords newLocation with
    | none => rfl
    | some p => cases p with | mk a b => simp [locCoords]
  · unfold checkCurrentUserGeofencesEvents
    cases hasUser <;> cases currentLoc <;> rfl


/-- Characterization of the shared falsy-or-not-a-number validation: a field
passes with value q iff it holds exactly the number q and q is not 0. -/
theorem validCoord_eq_some (v : Option JSVal) (q : ℚ) :
    validCoord v = some q ↔ (v = some (JSVal.vnum q) ∧ q ≠ 0) := by
  constructor
  · intro h
    cases v with
    | none => simp [validCoord] at h
    | some w =>
      cases w with
      | vnum x =>
        by_cases hx : x = 0
        · rw [hx] at h; simp [validCoord] at h
        · simp only [validCoord, if_neg hx, Option.some.injEq] at h
          subst h
          exact ⟨rfl, hx⟩
      | vbool b => simp [validCoord] at h
      | vother => simp [validCoord] at h
  · rintro ⟨rfl, hq⟩
    simp [validCoord, hq]

/-- CLAIM C10. The server trigger's data validation:
(a) a coordinate or radius field passes validation with value q iff it holds
    the number q and q is not 0 — missing, non-numeric and 0 values are all
    rejected;
(b) a location update in which the old or the new sample fails validation
    produces no events at all, for any fence set;
(c) a fence whose center is absent, or whose center latitude, center
    longitude or radius fails the same validation, is skipped (fenceParams
    none);
(d) a skipped fence contributes nothing to the event list;
(e) concretely, an old sample lying exactly on the equator (latitude 0)
    makes the whole update produce no events. -/
theorem c10_falsy_validation :
    (∀ (v : Option JSVal) (q : ℚ),
      validCoord v = some q ↔ (v = some (JSVal.vnum q) ∧ q ≠ 0)) ∧
    (∀ (dist : ℚ → ℚ → ℚ → ℚ → ℚ) (oldLocation newLocation : Option JSLoc)
       (fences : List JSFence),
      locCoords oldLocation = none ∨ locCoords newLocation = none →
      checkGeofencesEvents dist oldLocation newLocation fences = []) ∧
    (∀ f : JSFence,
      (f.center = none ∨
        ∃ la lo, f.center = some (la, lo) ∧
          (validCoord la = none ∨ validCoord lo = none ∨
            validCoord f.radius = none)) →
      fenceParams f = none) ∧
    (∀ (dist : ℚ → ℚ → ℚ → ℚ → ℚ) (oldLocation newLocation : Option JSLoc)
       (f : JSFence) (fences : List JSFence),
      fenceParams f = none →
      checkGeofencesEvents dist oldLocation newLocation (f :: fences) =
        checkGeofencesEvents dist oldLocation newLocation fences) ∧
    (∀ (dist : ℚ → ℚ → ℚ → ℚ → ℚ) (lon : Option JSVal)
       (newLocation : Option JSLoc) (fences : List JSFence),
      checkGeofencesEvents dist (some ⟨some (JSVal.vnum 0), lon⟩) newLocation
        fences = []) := by
  refine ⟨validCoord_eq_some, ?_, ?_, ?_, ?_⟩
  · intro dist oldLocation newLocation fences h
    unfold checkGeofencesEvents
    rcases h with h | h
    · rw [h]
      cases hn : locCoords newLocation with
      | none => rfl
      | some p => cases p with | mk a b => rfl
    · rw [h]
  · intro f
    obtain ⟨fid, fcenter, fradius⟩ := f
    intro h
    rcases h with h | ⟨la, lo, hc, hv⟩
    · simp only at h
      subst h
      rfl
    · simp only at hc
      subst hc
      simp only at hv
      rcases hv with h | h | h <;>
        simp only [fenceParams, h] <;>
        first
        | rfl
        | (cases h1 : validCoord la <;> cases h2 : validCoord lo <;>
            simp [h1, h2])
  · intro dist oldLocation newLocation f fences h
    unfold checkGeofencesEvents
    cases hn : locCoords newLocation with
    | none => rfl
    | some p =>
      cases p with
      | mk nlat nlon =>
        cases ho : locCoords oldLocation with
        | none => rfl
        | some q =>
          cases q with
          | mk olat olon => simp [List.filterMap_cons, h]
  · intro dist lon newLocation fences
    have h : locCoords (some ⟨some (JSVal.vnum 0), lon⟩) = none := by
      simp [locCoords, validCoord]
    unfold checkGeofencesEvents
    rw [h]
    cases hn : locCoords newLocation with
    | none => rfl
    | some p => cases p with | mk a b => rfl

/-- Witness for C10: the concrete fence with radius 0 is skipped, and an old
location with a missing longitude yields no events, at concrete inputs. -/
theorem c10_falsy_validation_witness :
    fenceParams ⟨"f1", some (some (JSVal.vnum 3), some (JSVal.vnum 4)),
        some (JSVal.vnum 0)⟩ = none ∧
    checkGeofencesEvents (fun _ _ _ _ => 1)
      (some ⟨some (JSVal.vnum 3), none⟩)
      (some ⟨some (JSVal.vnum 3), some (JSVal.vnum 4)⟩)
      [⟨"f1", some (some (JSVal.vnum 3), some (JSVal.vnum 4)),
        some (JSVal.vnum 7)⟩] = [] := by
  constructor
  · exact c10_falsy_validation.2.2.1 _
      (Or.inr ⟨some (JSVal.vnum 3), some (JSVal.vnum 4), rfl,
        Or.inr (Or.inr (by decide))⟩)
  · exact c10_falsy_validation.2.1 _ _ _ _ (Or.inl (by decide))

/-- CLAIM C4. The server cooldown gate:
(a) a low_battery candidate is allowed iff the latest log record matching
    the subject and the low_battery kind is absent, or at least the
    15-minute window old;
(b) a geofence candidate is allowed iff the latest log record matching the
    subject, the fence id and the event kind is absent, or at least the
    5-minute window old;
(c) the geofence gate is keyed per fence: a record for a different fence id
    never changes the decision;
(d) sos dispatch is always allowed, whatever the log holds. -/
theorem c4_cooldown_gate :
    (∀ (log : List NotifRecord) (userId : String) (now : ℤ),
      lowBatteryCooldownAllows log userId now = true ↔
        (latestMatching log
            (fun n => decide (n.triggeringUid = some userId ∧
              n.type = NotifType.low_battery)) = none ∨
          ∃ t, latestMatching log
              (fun n => decide (n.triggeringUid = some userId ∧
                n.type = NotifType.low_battery)) = some t ∧
            NOTIFICATION_COOLDOWN_MS_lowBattery ≤ now - t)) ∧
    (∀ (log : List NotifRecord) (userId fenceId : String) (ty : NotifType)
       (now : ℤ),
      geofenceCooldownAllows log userId fenceId ty now = true ↔
        (latestMatching log
            (fun n => decide (n.triggeringUid = some userId ∧
              n.relatedGeofenceId = some fenceId ∧ n.type = ty)) = none ∨
          ∃ t, latestMatching log
              (fun n => decide (n.triggeringUid = some userId ∧
                n.relatedGeofenceId = some fenceId ∧ n.type = ty)) = some t ∧
            NOTIFICATION_COOLDOWN_MS_geofence ≤ now - t)) ∧
    (∀ (log : List NotifRecord) (userId fenceId : String) (ty : NotifType)
       (now : ℤ) (n : NotifRecord),
      n.relatedGeofenceId ≠ some fenceId →
      geofenceCooldownAllows (n :: log) userId fenceId ty now =
        geofenceCooldownAllows log userId fenceId ty now) ∧
    (∀ log : List NotifRecord, sosCooldownAllows log = true) := by
  refine ⟨?_, ?_, ?_, fun _ => rfl⟩
  · intro log userId now
    unfold lowBatteryCooldownAllows
    cases h : latestMatching log
        (fun n => decide (n.triggeringUid = some userId ∧
          n.type = NotifType.low_battery)) with
    | none => simp
    | some t =>
      simp only [Option.some.injEq, reduceCtorEq, false_or]
      constructor
      · intro hall
        refine ⟨t, rfl, ?_⟩
        by_contra hlt
        rw [if_pos (by omega)] at hall
        exact Bool.false_ne_true hall
      · rintro ⟨t2, ht2, hw⟩
        rw [if_neg (by omega)]
  · intro log userId fenceId ty now
    unfold geofenceCooldownAllows
    cases h : latestMatching log
        (fun n => decide (n.triggeringUid = some userId ∧
          n.relatedGeofenceId = some fenceId ∧ n.type = ty)) with
    | none => simp
    | some t =>
      simp only [Option.some.injEq, reduceCtorEq, false_or]
      constructor
      · intro hall
        refine ⟨t, rfl, ?_⟩
        by_contra hlt
        rw [if_pos (by omega)] at hall
        exact Bool.false_ne_true hall
      · rintro ⟨t2, ht2, hw⟩
        rw [if_neg (by omega)]
  · intro log userId fenceId ty now n h
    unfold geofenceCooldownAllows latestMatching
    simp only [List.foldl_cons]
    have hd : (decide (n.triggeringUid = some userId ∧
        n.relatedGeofenceId = some fenceId ∧ n.type = ty)) = false := by
      simp [h]
    rw [hd]
    simp

/-- Witness for C4: a record for fence B does not change the gate for fence
A at concrete inputs. -/
theorem c4_cooldown_gate_witness :
    geofenceCooldownAllows
        [⟨"r", some "u", NotifType.geofence_entry, some "B", 0⟩]
        "u" "A" NotifType.geofence_entry 1000 =
      geofenceCooldownAllows [] "u" "A" NotifType.geofence_entry 1000 := by
  exact c4_cooldown_gate.2.2.1 [] "u" "A" NotifType.geofence_entry 1000
    ⟨"r", some "u", NotifType.geofence_entry, some "B", 0⟩ (by decide)

/-- COUNTEREXAMPLE to C2. At identical concrete inputs, the client geofence
cooldown decision flips with the runtime-local ref map alone (same fence,
same clock, no durable log in sight), and with an empty local map the client
allows an event that the server gate, reading the same durable log, blocks:
the client's suppress-or-allow decision does depend on runtime-local mutable
state and does not read the durable notification log. -/
theorem c2_counterexample :
    clientGeofenceGate [("home", 600000)] "home" 700000 = false ∧
    clientGeofenceGate [] "home" 700000 = true ∧
    geofenceCooldownAllows
        [⟨"r", some "u", NotifType.geofence_entry, some "home", 600000⟩]
        "u" "home" NotifType.geofence_entry 700000 = false ∧
    clientBatteryGate (some 600000) 700000 = false ∧
    clientBatteryGate none 700000 = true := by
  refine ⟨?_, rfl, ?_, ?_, rfl⟩ <;> decide

/-- CLAIM C2, amended. The server trigger's cooldown decisions are functions
of the durable notification log (they are determined by the latest matching
log record), while the client foreground loop's decisions are functions of
runtime-local mutable refs only — a per-fence timestamp map for geofence
events and a single last-alert timestamp for low battery — characterised
below; the client decisions take no log at all, so the two runtimes do not
read the same cooldown state. -/
theorem c2_dual_runtime_amended :
    (∀ (cds : List (String × ℤ)) (fenceId : String) (now : ℤ),
      clientGeofenceGate cds fenceId now = true ↔
        (cds.lookup fenceId = none ∨ cds.lookup fenceId = some 0 ∨
          ∃ t, cds.lookup fenceId = some t ∧
            GEOFENCE_COOLDOWN_PERIOD < now - t)) ∧
    (∀ (lastSent : Option ℤ) (now : ℤ),
      clientBatteryGate lastSent now = true ↔
        (lastSent = none ∨ lastSent = some 0 ∨
          ∃ t, lastSent = some t ∧ BATTERY_COOLDOWN_PERIOD < now - t)) ∧
    (∀ (log1 log2 : List NotifRecord) (userId fenceId : String)
       (ty : NotifType) (now : ℤ),
      latestMatching log1
          (fun n => decide (n.triggeringUid = some userId ∧
            n.relatedGeofenceId = some fenceId ∧ n.type = ty)) =
        latestMatching log2
          (fun n => decide (n.triggeringUid = some userId ∧
            n.relatedGeofenceId = some fenceId ∧ n.type = ty)) →
      geofenceCooldownAllows log1 userId fenceId ty now =
        geofenceCooldownAllows log2 userId fenceId ty now) ∧
    (∀ (log1 log2 : List NotifRecord) (userId : String) (now : ℤ),
      latestMatching log1
          (fun n => decide (n.triggeringUid = some userId ∧
            n.type = NotifType.low_battery)) =
        latestMatching log2
          (fun n => decide (n.triggeringUid = some userId ∧
            n.type = NotifType.low_battery)) →
      lowBatteryCooldownAllows log1 userId now =
        lowBatteryCooldownAllows log2 userId now) := by
  refine ⟨?_, ?_, ?_, ?_⟩
  · intro cds fenceId now
    unfold clientGeofenceGate
    cases h : cds.lookup fenceId with
    | none => simp
    | some t =>
      by_cases ht : t = 0
      · subst ht; simp
      · simp [ht]
  · intro lastSent now
    unfold clientBatteryGate
    cases lastSent with
    | none => simp
    | some t =>
      by_cases ht : t = 0
      · subst ht; simp
      · simp [ht]
  · intro log1 log2 userId fenceId ty now h
    unfold geofenceCooldownAllows
    rw [h]
  · intro log1 log2 userId now h
    unfold lowBatteryCooldownAllows
    rw [h]

/-- Witness for the amended C2: a log record that matches neither filter
leaves both server gates unchanged, at concrete inputs. -/
theorem c2_dual_runtime_amended_witness :
    geofenceCooldownAllows
        [⟨"r", some "v", NotifType.info, none, 600000⟩]
        "u" "home" NotifType.geofence_entry 700000 =
      geofenceCooldownAllows [] "u" "home" NotifType.geofence_entry 700000 ∧
    lowBatteryCooldownAllows
        [⟨"r", some "v", NotifType.info, none, 600000⟩] "u" 700000 =
      lowBatteryCooldownAllows [] "u" 700000 :=
  ⟨c2_dual_runtime_amended.2.2.1 _ [] "u" "home" NotifType.geofence_entry
      700000 (by decide),
   c2_dual_runtime_amended.2.2.2 _ [] "u" 700000 (by decide)⟩

/-- COUNTEREXAMPLE to C3. The server dispatcher does not record the
NotificationEvent regardless of push outcome: with no stored push token it
returns before the Firestore write (nothing stored), and an invalid-token
push failure throws before the write, so the catch clause clears the token
but the NotificationEvent is never recorded. -/
theorem c3_counterexample :
    sendAndStoreNotification none PushResult.delivered =
      ⟨false, false⟩ ∧
    sendAndStoreNotification (some "tok") PushResult.invalidToken =
      ⟨false, true⟩ := ⟨rfl, rfl⟩

/-- CLAIM C3, amended. The server dispatcher sendAndStoreNotification is
push-first, not durable-first: it records the NotificationEvent iff the
recipient has a stored token and the push is delivered, and it clears the
stored token iff the recipient has one and the push fails as invalid-token
(recording nothing in that case). Only the client dispatch path
createNotificationsForFamily appends exactly one NotificationEvent per
resolved recipient unconditionally — it performs no push at all. -/
theorem c3_dispatcher_amended :
    (∀ (fcmToken : Option String) (push : PushResult),
      (sendAndStoreNotification fcmToken push).stored = true ↔
        ((∃ s, fcmToken = some s) ∧ push = PushResult.delivered)) ∧
    (∀ (fcmToken : Option String) (push : PushResult),
      (sendAndStoreNotification fcmToken push).tokenCleared = true ↔
        ((∃ s, fcmToken = some s) ∧ push = PushResult.invalidToken)) ∧
    (∀ (senderUid : String) (memberIds : List String)
       (payload : NotificationPayload) (now : ℤ),
      payload.familyId ≠ "" →
      createNotificationsForFamily senderUid memberIds payload now =
        some ((getOtherFamilyMemberUids memberIds senderUid).map
          (fun uid => ⟨uid, payload.triggeringUid, payload.type,
            payload.relatedGeofenceId, now⟩)) ∧
      ∀ l, createNotificationsForFamily senderUid memberIds payload now =
          some l →
        l.length = (getOtherFamilyMemberUids memberIds senderUid).length) := by
  refine ⟨?_, ?_, ?_⟩
  · intro fcmToken push
    cases fcmToken <;> cases push <;>
      simp [sendAndStoreNotification]
  · intro fcmToken push
    cases fcmToken <;> cases push <;>
      simp [sendAndStoreNotification]
  · intro senderUid memberIds payload now h
    unfold createNotificationsForFamily
    rw [if_neg h]
    refine ⟨rfl, ?_⟩
    intro l hl
    injection hl with hl
    rw [← hl, List.length_map]

/-- Witness for the amended C3: with a non-empty family id, the client path
stores exactly one record for the one non-self member, at concrete inputs. -/
theorem c3_dispatcher_amended_witness :
    createNotificationsForFamily "u" ["u", "b"]
        ⟨NotifType.sos, "t", "m", "fam", some "u", none, none⟩ 5 =
      some [⟨"b", some "u", NotifType.sos, none, 5⟩] := by
  have h := (c3_dispatcher_amended.2.2 "u" ["u", "b"]
    ⟨NotifType.sos, "t", "m", "fam", some "u", none, none⟩ 5 (by decide)).1
  rw [h]
  rfl

/-- COUNTEREXAMPLE to C5. The client battery loop is not edge-triggered: on
the spec's own sequence [55, 18, 15, 25, 10], with more than the 15-minute
local cooldown elapsing between the samples at index 1 and index 2, the
client fires at index 2 as well (previous reading 18 is already at or below
the threshold, yet an event is emitted), so the events do not fire exactly
at indices 1 and 4 regardless of the time gaps between samples. -/
theorem c5_counterexample :
    clientBatteryRun true true none
        [(55, 0), (18, 1000), (15, 1000000), (25, 1000001), (10, 1000002)] =
      [false, true, true, false, true] := by decide

/-- CLAIM C5, amended. The server checkLowBattery detector is edge-triggered
exactly as claimed: it emits iff the current reading is at most 20 and the
previous reading is absent or above 20 (and never on a null reading), and on
the sequence [55, 18, 15, 25, 10] it fires exactly at indices 1 and 4
whatever the sample times (it reads none).  The client foreground loop
instead fires iff the level is at most 20, alerts are enabled and its
runtime-local 15-minute cooldown gate allows (the gate's marker resets when
the level rises above 20), which reproduces indices 1 and 4 only while the
consecutive below-threshold samples fall inside the cooldown window. -/
theorem c5_low_battery_amended :
    (∀ (prev : Option ℚ) (b : ℚ),
      serverLowBatteryFires prev (some b) = true ↔
        (b ≤ 20 ∧ (prev = none ∨ ∃ p, prev = some p ∧ 20 < p))) ∧
    (∀ prev : Option ℚ, serverLowBatteryFires prev none = false) ∧
    serverEdgeFires none [55, 18, 15, 25, 10] =
      [false, true, false, false, true] ∧
    (∀ (lastSent : Option ℤ) (newLevel now : ℤ)
       (batteryAlertsEnabled : Bool),
      (clientBatteryStep lastSent newLevel now true batteryAlertsEnabled).1 =
          true ↔
        (newLevel ≤ 20 ∧ batteryAlertsEnabled = true ∧
          clientBatteryGate lastSent now = true)) := by
  refine ⟨?_, fun _ => rfl, by decide, ?_⟩
  · intro prev b
    cases prev with
    | none => simp [serverLowBatteryFires, LOW_BATTERY_THRESHOLD]
    | some p => simp [serverLowBatteryFires, LOW_BATTERY_THRESHOLD]
  · intro lastSent newLevel now batteryAlertsEnabled
    unfold clientBatteryStep
    by_cases h : newLevel ≤ 20
    · cases batteryAlertsEnabled with
      | false => simp [h]
      | true =>
        by_cases hg : clientBatteryGate lastSent now = true
        · simp [h, hg]
        · simp [h, hg]
    · have h2 : (20 : ℤ) < newLevel := not_le.mp h
      simp [h, h2]

/-- CLAIM C7. Never notify yourself: every record produced by the server
fan-out carries the triggering user as triggeringUid and a recipient
different from them, and every record stored by the client dispatch path has
a recipient different from the sender (so whenever the payload's
triggeringUid is the sender, as at every call site, recipientUid never
equals the triggering uid). -/
theorem c7_never_notify_self :
    (∀ (memberIds : List String) (userId : String) (ty : NotifType)
       (relatedGeofenceId : Option String) (now : ℤ) (r : NotifRecord),
      r ∈ serverFanOutRecords memberIds userId ty relatedGeofenceId now →
      r.triggeringUid = some userId ∧ r.recipientUid ≠ userId) ∧
    (∀ (senderUid : String) (memberIds : List String)
       (payload : NotificationPayload) (now : ℤ) (l : List NotifRecord)
       (r : NotifRecord),
      createNotificationsForFamily senderUid memberIds payload now = some l →
      r ∈ l →
      r.recipientUid ≠ senderUid ∧
        (payload.triggeringUid = some senderUid →
          r.triggeringUid ≠ some r.recipientUid)) := by
  constructor
  · intro memberIds userId ty relatedGeofenceId now r hr
    unfold serverFanOutRecords at hr
    rcases List.mem_map.mp hr with ⟨uid, hf, rfl⟩
    refine ⟨rfl, ?_⟩
    have := (List.mem_filter.mp hf).2
    simp at this
    exact this
  · intro senderUid memberIds payload now l r hl hr
    unfold createNotificationsForFamily at hl
    by_cases h : payload.familyId = ""
    · rw [if_pos h] at hl
      exact absurd hl (by simp)
    · rw [if_neg h] at hl
      injection hl with hl
      rw [← hl] at hr
      rcases List.mem_map.mp hr with ⟨uid, hf, rfl⟩
      unfold getOtherFamilyMemberUids at hf
      have hne := (List.mem_filter.mp hf).2
      simp at hne
      refine ⟨hne, ?_⟩
      intro htrig
      rw [htrig]
      intro hcontra
      injection hcontra with hcontra
      exact hne hcontra.symm

/-- Witness for C7: with family members a and b and triggering user a, the
single fanned-out record goes to b and not to a, at concrete inputs. -/
theorem c7_never_notify_self_witness :
    ((⟨"b", some "a", NotifType.sos, none, 0⟩ : NotifRecord).triggeringUid =
        some "a" ∧
      (⟨"b", some "a", NotifType.sos, none, 0⟩ :
        NotifRecord).recipientUid ≠ "a") ∧
    ((⟨"b", some "a", NotifType.sos, none, 7⟩ :
        NotifRecord).recipientUid ≠ "a" ∧
      ((⟨NotifType.sos, "t", "m", "fam", some "a", none, none⟩ :
          NotificationPayload).triggeringUid = some "a" →
        (⟨"b", some "a", NotifType.sos, none, 7⟩ :
          NotifRecord).triggeringUid ≠
          some (⟨"b", some "a", NotifType.sos, none, 7⟩ :
            NotifRecord).recipientUid)) :=
  ⟨c7_never_notify_self.1 ["a", "b"] "a" NotifType.sos none 0 _ (by decide),
   c7_never_notify_self.2 "a" ["a", "b"]
     ⟨NotifType.sos, "t", "m", "fam", some "a", none, none⟩ 7
     [⟨"b", some "a", NotifType.sos, none, 7⟩] _ (by decide) (by decide)⟩

/-- CLAIM C8. Every save accepted by the geofence edit screen writes the
trimmed (non-empty) name, the rounded radius — an integer within
[50, 5000] — the chosen center and the family id; and any save attempt with
no center, an empty trimmed name, or a radius below MIN_RADIUS = 50 or above
MAX_RADIUS = 5000 is rejected with no write. -/
theorem c8_geofence_save :
    MIN_RADIUS = 50 ∧ MAX_RADIUS = 5000 ∧
    (∀ (s : GeofenceSaveForm) (g : GeofenceDocument),
      handleSave s = some g →
      (50 ≤ g.radius ∧ g.radius ≤ 5000 ∧ g.radius = jsRound s.radius ∧
        g.name = jsTrim s.name ∧ g.name ≠ "" ∧ s.center = some g.center)) ∧
    (∀ s : GeofenceSaveForm,
      (s.center = none ∨ jsTrim s.name = "" ∨ s.radius < 50 ∨
        5000 < s.radius) →
      handleSave s = none) := by
  refine ⟨rfl, rfl, ?_, ?_⟩
  · intro s g h
    obtain ⟨hu, fid, adm, ctr, nm, rad⟩ := s
    unfold handleSave at h
    by_cases h1 : hu = false
    · rw [if_pos h1] at h; exact absurd h (by simp)
    · rw [if_neg h1] at h
      cases fid with
      | none => exact absurd h (by simp)
      | some f =>
        simp only at h
        by_cases h2 : f = ""
        · rw [if_pos h2] at h; exact absurd h (by simp)
        · rw [if_neg h2] at h
          by_cases h3 : adm = false
          · rw [if_pos h3] at h; exact absurd h (by simp)
          · rw [if_neg h3] at h
            cases ctr with
            | none => exact absurd h (by simp)
            | some c =>
              simp only at h
              by_cases h4 : jsTrim nm = ""
              · rw [if_pos h4] at h; exact absurd h (by simp)
              · rw [if_neg h4] at h
                by_cases h5 : rad < MIN_RADIUS ∨ MAX_RADIUS < rad
                · rw [if_pos h5] at h; exact absurd h (by simp)
                · rw [if_neg h5] at h
                  push_neg at h5
                  obtain ⟨hlo, hhi⟩ := h5
                  unfold MIN_RADIUS at hlo
                  unfold MAX_RADIUS at hhi
                  injection h with h
                  subst h
                  refine ⟨?_, ?_, rfl, rfl, h4, rfl⟩
                  · show (50 : ℤ) ≤ jsRound rad
                    unfold jsRound
                    rw [Int.le_floor]
                    push_cast
                    linarith
                  · show jsRound rad ≤ 5000
                    unfold jsRound
                    have hf : ⌊rad + 1 / 2⌋ < 5001 := by
                      rw [Int.floor_lt]
                      push_cast
                      linarith
                    omega
  · intro s h
    obtain ⟨hu, fid, adm, ctr, nm, rad⟩ := s
    unfold handleSave
    by_cases h1 : hu = false
    · rw [if_pos h1]
    · rw [if_neg h1]
      cases fid with
      | none => rfl
      | some f =>
        simp only
        by_cases h2 : f = ""
        · rw [if_pos h2]
        · rw [if_neg h2]
          by_cases h3 : adm = false
          · rw [if_pos h3]
          · rw [if_neg h3]
            cases ctr with
            | none => rfl
            | some c =>
              simp only
              rcases h with hc | hn | hr | hr
              · exact absurd hc (by simp)
              · rw [if_pos hn]
              · by_cases h4 : jsTrim nm = ""
                · rw [if_pos h4]
                · rw [if_neg h4]
                  rw [if_pos (Or.inl (by unfold MIN_RADIUS; exact hr))]
              · by_cases h4 : jsTrim nm = ""
                · rw [if_pos h4]
                · rw [if_neg h4]
                  rw [if_pos (Or.inr (by unfold MAX_RADIUS; exact hr))]

/-- Witness for C8: a concrete accepted save stores the trimmed name, the
rounded radius and the chosen center, and a concrete save with no center is
rejected. -/
theorem c8_geofence_save_witness :
    ((50 : ℤ) ≤ jsRound (120) ∧ jsRound (120) ≤ 5000 ∧
      jsRound (120) = jsRound (120) ∧
      jsTrim "Home" = jsTrim "Home" ∧ jsTrim "Home" ≠ "" ∧
      (some ((1 : ℚ), (2 : ℚ)) = some ((1 : ℚ), (2 : ℚ)))) ∧
    handleSave ⟨true, some "fam", true, none, "Home", 120⟩ = none :=
  ⟨c8_geofence_save.2.2.1
      ⟨true, some "fam", true, some (1, 2), "Home", 120⟩
      ⟨jsTrim "Home", jsRound (120), (1, 2), "fam"⟩ rfl,
   c8_geofence_save.2.2.2 ⟨true, some "fam", true, none, "Home", 120⟩
     (Or.inl rfl)⟩

/-- Swapping the two coordinates leaves the haversine intermediate value
unchanged: both squared half-angle sines are even in the difference and the
cosine product commutes. -/
theorem haversineA_swap (lat1 lon1 lat2 lon2 : ℝ) :
    Functions.haversineA lat2 lon2 lat1 lon1 =
      Functions.haversineA lat1 lon1 lat2 lon2 := by
  unfold Functions.haversineA
  have h1 : (lat1 - lat2) * Real.pi / 180 / 2 =
      -((lat2 - lat1) * Real.pi / 180 / 2) := by ring
  have h2 : (lon1 - lon2) * Real.pi / 180 / 2 =
      -((lon2 - lon1) * Real.pi / 180 / 2) := by ring
  rw [h1, h2]
  simp only [Real.sin_neg]
  ring

/-- At equal coordinates the haversine intermediate value is zero. -/
theorem haversineA_self (lat lon : ℝ) :
    Functions.haversineA lat lon lat lon = 0 := by
  unfold Functions.haversineA
  simp

/-- CLAIM C9. The client helper getDistance and the server copy compute the
same function; that common haversine distance (sphere radius 6,371,000 m) is
symmetric in its two coordinate pairs, and is zero at equal pairs — stated
for both copies. -/
theorem c9_distance_oracle :
    (∀ lat1 lon1 lat2 lon2 : ℝ,
      Helpers.getDistance lat1 lon1 lat2 lon2 =
        Functions.getDistance lat1 lon1 lat2 lon2) ∧
    (∀ lat1 lon1 lat2 lon2 : ℝ,
      Functions.getDistance lat1 lon1 lat2 lon2 =
        Functions.getDistance lat2 lon2 lat1 lon1) ∧
    (∀ lat lon : ℝ, Functions.getDistance lat lon lat lon = 0) ∧
    (∀ lat1 lon1 lat2 lon2 : ℝ,
      Helpers.getDistance lat1 lon1 lat2 lon2 =
        Helpers.getDistance lat2 lon2 lat1 lon1) ∧
    (∀ lat lon : ℝ, Helpers.getDistance lat lon lat lon = 0) := by
  have heq : ∀ lat1 lon1 lat2 lon2 : ℝ,
      Helpers.getDistance lat1 lon1 lat2 lon2 =
        Functions.getDistance lat1 lon1 lat2 lon2 :=
    fun _ _ _ _ => rfl
  have hsymm : ∀ lat1 lon1 lat2 lon2 : ℝ,
      Functions.getDistance lat1 lon1 lat2 lon2 =
        Functions.getDistance lat2 lon2 lat1 lon1 := by
    intro lat1 lon1 lat2 lon2
    unfold Functions.getDistance
    rw [haversineA_swap]
  have hzero : ∀ lat lon : ℝ, Functions.getDistance lat lon lat lon = 0 := by
    intro lat lon
    unfold Functions.getDistance
    rw [haversineA_self]
    rw [Real.sqrt_zero, sub_zero, Real.sqrt_one]
    have ha : jsAtan2 0 1 = 0 := by
      unfold jsAtan2
      rw [if_pos one_pos]
      simp [Real.arctan_zero]
    rw [ha]
    ring
  refine ⟨heq, hsymm, hzero, ?_, ?_⟩
  · intro lat1 lon1 lat2 lon2
    rw [heq, heq]
    exact hsymm lat1 lon1 lat2 lon2
  · intro lat lon
    rw [heq]
    exact hzero lat lon
